import Mathlib

/-!
Verification of the password-generator server actions
(src/src/actions/index.ts) against their natural-language specification.

The TypeScript handlers are shallowly embedded: the relational store is a
pair of lists, dates are natural-number timestamps, generated UUIDs are
explicit string parameters, fallible handlers return `Except` together
with the (possibly updated) store, and zod schema validation is a parse
step run before the handler, as the action framework does.
-/

namespace PasswordGen

/-- The authenticated user record found in `context.locals.user`. -/
structure User where
  id : String
  deriving Repr, DecidableEq

/-- The request context (`ActionAPIContext`): it either carries an
authenticated user in its locals or does not. -/
structure ActionAPIContext where
  user : Option User
  deriving Repr, DecidableEq

/-- Error codes of the `ActionError`s thrown by the handlers. -/
inductive ErrorCode
  | UNAUTHORIZED
  | NOT_FOUND
  deriving Repr, DecidableEq

/-- A failure of an action: either a zod schema validation failure
(raised before the handler runs) or a thrown `ActionError`. -/
inductive ActionFailure
  | validation (message : String)
  | action (code : ErrorCode) (message : String)
  deriving Repr, DecidableEq

/-- Checks that a failure is a schema validation failure. -/
def isValidationFailure {α : Type} : Except ActionFailure α → Bool
  | .error (.validation _) => true
  | _ => false

/-- The `ActionError` thrown by `requireUser`. -/
def unauthorizedFailure : ActionFailure :=
  .action .UNAUTHORIZED "You must be signed in to perform this action."

/-- The `ActionError` thrown by `getOwnedPreset`. -/
def notFoundFailure : ActionFailure :=
  .action .NOT_FOUND "Password preset not found."

/-- A row of the `PasswordPresets` table. -/
structure PasswordPreset where
  id : String
  userId : String
  name : String
  length : Int
  includeLowercase : Bool
  includeUppercase : Bool
  includeNumbers : Bool
  includeSymbols : Bool
  excludeSimilar : Bool
  customSymbols : Option String
  notes : Option String
  isDefault : Bool
  createdAt : Nat
  updatedAt : Nat
  deriving Repr, DecidableEq

/-- A row of the `GeneratedPasswords` table. -/
structure GeneratedPassword where
  id : String
  userId : String
  presetId : Option String
  encryptedValue : Option String
  hintLabel : Option String
  length : Option Int
  wasCopied : Bool
  lastCopiedAt : Option Nat
  createdAt : Nat
  deriving Repr, DecidableEq

/-- The relational store: the two tables the actions touch. -/
structure Store where
  passwordPresets : List PasswordPreset
  generatedPasswords : List GeneratedPassword
  deriving Repr, DecidableEq

/-- `requireUser(context)`: return the user from context locals, or throw
UNAUTHORIZED when none is present. -/
def requireUser (context : ActionAPIContext) : Except ActionFailure User :=
  match context.user with
  | none => .error unauthorizedFailure
  | some user => .ok user

/-- `getOwnedPreset(presetId, userId)`: select the presets whose id and
userId both match, take the first, and throw NOT_FOUND when there is
none. -/
def getOwnedPreset (presetId userId : String) (store : Store) :
    Except ActionFailure PasswordPreset :=
  match (store.passwordPresets.filter fun p =>
      p.id == presetId && p.userId == userId).head? with
  | none => .error notFoundFailure
  | some preset => .ok preset

/-- The raw input of `createPreset` before zod parsing: `name` and
`length` are required, the booleans carry `.default(...)` (so arrive
optional), the rest is `.optional()`. -/
structure CreatePresetRawInput where
  name : String
  length : Int
  includeLowercase : Option Bool := none
  includeUppercase : Option Bool := none
  includeNumbers : Option Bool := none
  includeSymbols : Option Bool := none
  excludeSimilar : Option Bool := none
  customSymbols : Option String := none
  notes : Option String := none
  isDefault : Option Bool := none
  deriving Repr, DecidableEq

/-- The parsed input the `createPreset` handler receives: zod has
applied the declared defaults to the five boolean flags. -/
structure CreatePresetInput where
  name : String
  length : Int
  includeLowercase : Bool
  includeUppercase : Bool
  includeNumbers : Bool
  includeSymbols : Bool
  excludeSimilar : Bool
  customSymbols : Option String
  notes : Option String
  isDefault : Option Bool
  deriving Repr, DecidableEq

/-- zod parsing of the `createPreset` input schema:
`name: z.string().min(1)`, `length: z.number().int().min(4)`, the flags
defaulted (lowercase/uppercase/numbers/symbols true, excludeSimilar
false), `customSymbols`, `notes`, `isDefault` passed through optional. -/
def parseCreatePresetInput (raw : CreatePresetRawInput) :
    Except ActionFailure CreatePresetInput :=
  if raw.name.length < 1 then
    .error (.validation "String must contain at least 1 character(s)")
  else if raw.length < 4 then
    .error (.validation "Number must be greater than or equal to 4")
  else
    .ok { name := raw.name
          length := raw.length
          includeLowercase := raw.includeLowercase.getD true
          includeUppercase := raw.includeUppercase.getD true
          includeNumbers := raw.includeNumbers.getD true
          includeSymbols := raw.includeSymbols.getD true
          excludeSimilar := raw.excludeSimilar.getD false
          customSymbols := raw.customSymbols
          notes := raw.notes
          isDefault := raw.isDefault }

/-- The `{ success: true, data: { preset } }` envelope of `createPreset`. -/
structure CreatePresetResult where
  success : Bool
  preset : PasswordPreset
  deriving Repr, DecidableEq

/-- The `createPreset` handler: require a user, build the row with a
freshly generated id, `userId = user.id`, the input fields,
`isDefault = input.isDefault ?? false` and `createdAt = updatedAt = now`,
insert it and return it. -/
def createPresetHandler (input : CreatePresetInput)
    (context : ActionAPIContext) (newId : String) (now : Nat)
    (store : Store) : Except ActionFailure CreatePresetResult × Store :=
  match requireUser context with
  | .error e => (.error e, store)
  | .ok user =>
    let preset : PasswordPreset :=
      { id := newId
        userId := user.id
        name := input.name
        length := input.length
        includeLowercase := input.includeLowercase
        includeUppercase := input.includeUppercase
        includeNumbers := input.includeNumbers
        includeSymbols := input.includeSymbols
        excludeSimilar := input.excludeSimilar
        customSymbols := input.customSymbols
        notes := input.notes
        isDefault := input.isDefault.getD false
        createdAt := now
        updatedAt := now }
    (.ok { success := true, preset := preset },
     { store with passwordPresets := store.passwordPresets ++ [preset] })

/-- The full `createPreset` action: zod parse, then the handler. -/
def createPreset (raw : CreatePresetRawInput) (context : ActionAPIContext)
    (newId : String) (now : Nat) (store : Store) :
    Except ActionFailure CreatePresetResult × Store :=
  match parseCreatePresetInput raw with
  | .error e => (.error e, store)
  | .ok input => createPresetHandler input context newId now store

/-- The input of `updatePreset`: a required id and ten optional fields. -/
structure UpdatePresetInput where
  id : String
  name : Option String := none
  length : Option Int := none
  includeLowercase : Option Bool := none
  includeUppercase : Option Bool := none
  includeNumbers : Option Bool := none
  includeSymbols : Option Bool := none
  excludeSimilar : Option Bool := none
  customSymbols : Option String := none
  notes : Option String := none
  isDefault : Option Bool := none
  deriving Repr, DecidableEq

/-- The `.refine` predicate of the `updatePreset` schema: at least one
field besides id is supplied. -/
def updatePresetHasField (input : UpdatePresetInput) : Bool :=
  input.name.isSome || input.length.isSome ||
  input.includeLowercase.isSome || input.includeUppercase.isSome ||
  input.includeNumbers.isSome || input.includeSymbols.isSome ||
  input.excludeSimilar.isSome || input.customSymbols.isSome ||
  input.notes.isSome || input.isDefault.isSome

/-- zod parsing of the `updatePreset` input schema:
`id: z.string().min(1)`, `length: z.number().int().min(4).optional()`,
then the `.refine` requiring at least one optional field. -/
def parseUpdatePresetInput (raw : UpdatePresetInput) :
    Except ActionFailure UpdatePresetInput :=
  if raw.id.length < 1 then
    .error (.validation "String must contain at least 1 character(s)")
  else if (match raw.length with | some l => decide (l < 4) | none => false) then
    .error (.validation "Number must be greater than or equal to 4")
  else if !updatePresetHasField raw then
    .error (.validation "At least one field must be provided to update.")
  else
    .ok raw

/-- The `.set({...})` object of `updatePreset`: each supplied field
overrides the stored one, unsupplied fields spread to nothing, and
`updatedAt` is stamped with a fresh `new Date()`. -/
def applyPresetUpdate (input : UpdatePresetInput) (now : Nat)
    (p : PasswordPreset) : PasswordPreset :=
  { p with
    name := input.name.getD p.name
    length := input.length.getD p.length
    includeLowercase := input.includeLowercase.getD p.includeLowercase
    includeUppercase := input.includeUppercase.getD p.includeUppercase
    includeNumbers := input.includeNumbers.getD p.includeNumbers
    includeSymbols := input.includeSymbols.getD p.includeSymbols
    excludeSimilar := input.excludeSimilar.getD p.excludeSimilar
    customSymbols := match input.customSymbols with
      | some s => some s
      | none => p.customSymbols
    notes := match input.notes with
      | some s => some s
      | none => p.notes
    isDefault := input.isDefault.getD p.isDefault
    updatedAt := now }

/-- The `{ success: true, data: { preset } }` envelope of `updatePreset`:
`const [preset]` of `.returning()` may destructure to undefined. -/
structure UpdatePresetResult where
  success : Bool
  preset : Option PasswordPreset
  deriving Repr, DecidableEq

/-- The `updatePreset` handler: require a user, check ownership via
`getOwnedPreset(input.id, user.id)`, then update every row whose id
matches `input.id` (the where clause filters on id only) and return the
first row `returning()` yields. -/
def updatePresetHandler (input : UpdatePresetInput)
    (context : ActionAPIContext) (now : Nat) (store : Store) :
    Except ActionFailure UpdatePresetResult × Store :=
  match requireUser context with
  | .error e => (.error e, store)
  | .ok user =>
    match getOwnedPreset input.id user.id store with
    | .error e => (.error e, store)
    | .ok _ =>
      let updated := store.passwordPresets.map fun p =>
        if p.id == input.id then applyPresetUpdate input now p else p
      let returned := (updated.filter fun p => p.id == input.id).head?
      (.ok { success := true, preset := returned },
       { store with passwordPresets := updated })

/-- The full `updatePreset` action: zod parse, then the handler. -/
def updatePreset (raw : UpdatePresetInput) (context : ActionAPIContext)
    (now : Nat) (store : Store) :
    Except ActionFailure UpdatePresetResult × Store :=
  match parseUpdatePresetInput raw with
  | .error e => (.error e, store)
  | .ok input => updatePresetHandler input context now store

/-- The `{ success: true, data: { items, total } }` envelope of
`listPresets`. -/
structure ListPresetsResult where
  success : Bool
  items : List PasswordPreset
  total : Nat
  deriving Repr, DecidableEq

/-- The `listPresets` handler (its `defaultsOnly` input arrives with the
zod default false already applied): require a user, filter the presets
by `userId = user.id`, adding an `isDefault = true` filter when
`defaultsOnly` is set, and return the rows and their count. -/
def listPresetsHandler (defaultsOnly : Bool) (context : ActionAPIContext)
    (store : Store) : Except ActionFailure ListPresetsResult × Store :=
  match requireUser context with
  | .error e => (.error e, store)
  | .ok user =>
    let presets := store.passwordPresets.filter fun p =>
      p.userId == user.id && (!defaultsOnly || p.isDefault)
    (.ok { success := true, items := presets, total := presets.length },
     store)

/-- The input of `logGeneratedPassword`: every field optional. -/
structure LogGeneratedPasswordInput where
  presetId : Option String := none
  encryptedValue : Option String := none
  hintLabel : Option String := none
  length : Option Int := none
  wasCopied : Option Bool := none
  lastCopiedAt : Option Nat := none
  deriving Repr, DecidableEq

/-- JavaScript truthiness of an optional string: undefined and the empty
string are falsy. -/
def truthyString : Option String → Bool
  | none => false
  | some s => !(s == "")

/-- The `if (input.presetId) { await getOwnedPreset(input.presetId,
user.id) }` guard shared by `logGeneratedPassword` and
`listGeneratedPasswords`: the lookup runs only when the optional
presetId is truthy (present and non-empty). -/
def checkPresetOwnership (presetId : Option String) (userId : String)
    (store : Store) : Except ActionFailure Unit :=
  match presetId with
  | none => .ok ()
  | some pid =>
    if pid == "" then .ok ()
    else
      match getOwnedPreset pid userId store with
      | .error e => .error e
      | .ok _ => .ok ()

/-- The `{ success: true, data: { password } }` envelope of
`logGeneratedPassword`. -/
structure LogGeneratedPasswordResult where
  success : Bool
  password : GeneratedPassword
  deriving Repr, DecidableEq

/-- The `logGeneratedPassword` handler: require a user, check ownership
when presetId is truthy, then insert a row with a generated id,
`userId = user.id`, `presetId = input.presetId ?? null`,
`wasCopied = input.wasCopied ?? false` and `createdAt = new Date()`,
and return it. -/
def logGeneratedPasswordHandler (input : LogGeneratedPasswordInput)
    (context : ActionAPIContext) (newId : String) (now : Nat)
    (store : Store) :
    Except ActionFailure LogGeneratedPasswordResult × Store :=
  match requireUser context with
  | .error e => (.error e, store)
  | .ok user =>
    match checkPresetOwnership input.presetId user.id store with
    | .error e => (.error e, store)
    | .ok _ =>
      let password : GeneratedPassword :=
        { id := newId
          userId := user.id
          presetId := input.presetId
          encryptedValue := input.encryptedValue
          hintLabel := input.hintLabel
          length := input.length
          wasCopied := input.wasCopied.getD false
          lastCopiedAt := input.lastCopiedAt
          createdAt := now }
      (.ok { success := true, password := password },
       { store with
          generatedPasswords := store.generatedPasswords ++ [password] })

/-- The input of `listGeneratedPasswords`: an optional presetId filter. -/
structure ListGeneratedPasswordsInput where
  presetId : Option String := none
  deriving Repr, DecidableEq

/-- The `{ success: true, data: { items, total } }` envelope of
`listGeneratedPasswords`. -/
structure ListGeneratedPasswordsResult where
  success : Bool
  items : List GeneratedPassword
  total : Nat
  deriving Repr, DecidableEq

/-- The `listGeneratedPasswords` handler: require a user, and when
presetId is truthy check ownership and add a `presetId` equality filter;
filter the rows by `userId = user.id` (plus that optional filter) and
return them with their count. -/
def listGeneratedPasswordsHandler (input : ListGeneratedPasswordsInput)
    (context : ActionAPIContext) (store : Store) :
    Except ActionFailure ListGeneratedPasswordsResult × Store :=
  match requireUser context with
  | .error e => (.error e, store)
  | .ok user =>
    match checkPresetOwnership input.presetId user.id store with
    | .error e => (.error e, store)
    | .ok _ =>
      let passwords := store.generatedPasswords.filter fun g =>
        g.userId == user.id &&
          (!truthyString input.presetId || g.presetId == input.presetId)
      (.ok { success := true, items := passwords,
             total := passwords.length },
       store)

/-! Sample rows and stores used to instantiate witnesses. -/

/-- A sample preset row owned by alice. -/
def samplePreset : PasswordPreset :=
  { id := "p1", userId := "alice", name := "Default strong", length := 16,
    includeLowercase := true, includeUppercase := true,
    includeNumbers := true, includeSymbols := true, excludeSimilar := false,
    customSymbols := none, notes := none, isDefault := true,
    createdAt := 0, updatedAt := 0 }

/-- A sample store holding alice's preset and no generated passwords. -/
def sampleStore : Store :=
  { passwordPresets := [samplePreset], generatedPasswords := [] }

/-- Auxiliary: a nonempty string has length at least 1. -/
theorem length_pos_of_ne_empty (s : String) (h : s ≠ "") : ¬s.length < 1 := by
  simp only [Nat.lt_one_iff]
  intro h0
  apply h
  cases s with
  | mk data =>
    simp [String.length] at h0
    simp [h0]

/-- C2: with no user in the request context, each of the five handlers
fails with UNAUTHORIZED and leaves the store unchanged. -/
theorem handlers_unauthorized_without_user (context : ActionAPIContext)
    (hctx : context.user = none) :
    (∀ input newId now store,
      createPresetHandler input context newId now store =
        (.error unauthorizedFailure, store)) ∧
    (∀ input now store,
      updatePresetHandler input context now store =
        (.error unauthorizedFailure, store)) ∧
    (∀ defaultsOnly store,
      listPresetsHandler defaultsOnly context store =
        (.error unauthorizedFailure, store)) ∧
    (∀ input newId now store,
      logGeneratedPasswordHandler input context newId now store =
        (.error unauthorizedFailure, store)) ∧
    (∀ input store,
      listGeneratedPasswordsHandler input context store =
        (.error unauthorizedFailure, store)) := by
  refine ⟨?_, ?_, ?_, ?_, ?_⟩ <;> intros <;>
    simp [createPresetHandler, updatePresetHandler, listPresetsHandler,
      logGeneratedPasswordHandler, listGeneratedPasswordsHandler,
      requireUser, hctx]

/-- C2 witness: the createPreset handler, called with a concrete
unauthenticated context, fails with UNAUTHORIZED and leaves the sample
store unchanged. -/
theorem handlers_unauthorized_without_user_witness :
    createPresetHandler
      { name := "Wi-Fi", length := 12, includeLowercase := true,
        includeUppercase := true, includeNumbers := true,
        includeSymbols := true, excludeSimilar := false,
        customSymbols := none, notes := none, isDefault := none }
      { user := none } "id1" 3 sampleStore =
      (.error unauthorizedFailure, sampleStore) :=
  (handlers_unauthorized_without_user { user := none } rfl).1 _ "id1" 3
    sampleStore

/-- C3: an updatePreset input supplying only the id and none of the ten
optional fields fails schema validation, and the store is unchanged. -/
theorem updatePreset_no_fields_fails_validation (raw : UpdatePresetInput)
    (context : ActionAPIContext) (now : Nat) (store : Store)
    (hname : raw.name = none) (hlength : raw.length = none)
    (hlc : raw.includeLowercase = none) (huc : raw.includeUppercase = none)
    (hnum : raw.includeNumbers = none) (hsym : raw.includeSymbols = none)
    (hex : raw.excludeSimilar = none) (hcs : raw.customSymbols = none)
    (hnotes : raw.notes = none) (hd : raw.isDefault = none) :
    isValidationFailure (updatePreset raw context now store).1 = true ∧
    (updatePreset raw context now store).2 = store := by
  have hf : updatePresetHasField raw = false := by
    simp [updatePresetHasField, hname, hlength, hlc, huc, hnum, hsym, hex,
      hcs, hnotes, hd]
  unfold updatePreset parseUpdatePresetInput
  rw [hlength, hf]
  by_cases h : raw.id.length < 1 <;> simp [h, isValidationFailure]

/-- C3 witness: an updatePreset call that supplies only the id fails as a
validation failure and leaves the sample store unchanged. -/
theorem updatePreset_no_fields_fails_validation_witness :
    isValidationFailure
      (updatePreset { id := "p1" } { user := some { id := "alice" } } 5
        sampleStore).1 = true ∧
    (updatePreset { id := "p1" } { user := some { id := "alice" } } 5
      sampleStore).2 = sampleStore :=
  updatePreset_no_fields_fails_validation { id := "p1" }
    { user := some { id := "alice" } } 5 sampleStore
    rfl rfl rfl rfl rfl rfl rfl rfl rfl rfl

/-- C7: every successful listPresets or listGeneratedPasswords response
reports a total equal to the number of returned items. -/
theorem list_total_matches_items :
    (∀ defaultsOnly context store res store2,
      listPresetsHandler defaultsOnly context store = (.ok res, store2) →
      res.total = res.items.length) ∧
    (∀ input context store res store2,
      listGeneratedPasswordsHandler input context store = (.ok res, store2) →
      res.total = res.items.length) := by
  constructor
  · intro d context store res store2 h
    unfold listPresetsHandler at h
    cases hu : requireUser context with
    | error e => rw [hu] at h; simp at h
    | ok user =>
      rw [hu] at h
      simp only [Prod.mk.injEq, Except.ok.injEq] at h
      obtain ⟨h1, h2⟩ := h
      subst h1
      rfl
  · intro input context store res store2 h
    unfold listGeneratedPasswordsHandler at h
    cases hu : requireUser context with
    | error e => rw [hu] at h; simp at h
    | ok user =>
      rw [hu] at h
      dsimp only at h
      cases hown : checkPresetOwnership input.presetId user.id store with
      | error e => rw [hown] at h; simp at h
      | ok upd =>
        rw [hown] at h
        simp only [Prod.mk.injEq, Except.ok.injEq] at h
        obtain ⟨h1, h2⟩ := h
        subst h1
        rfl

/-- C7 witness: a concrete successful listPresets call returns a total
equal to the length of its item list. -/
theorem list_total_matches_items_witness :
    ({ success := true, items := [samplePreset], total := 1 } :
      ListPresetsResult).total =
      ([samplePreset] : List PasswordPreset).length :=
  list_total_matches_items.1 false { user := some { id := "alice" } }
    sampleStore { success := true, items := [samplePreset], total := 1 }
    sampleStore rfl

/-- C8: logGeneratedPassword with presetId unset succeeds on every store
(so performs no ownership lookup), inserting a record with presetId null,
the generated id, the caller's userId, the supplied-or-default wasCopied,
and createdAt = now. -/
theorem log_without_presetId_inserts (input : LogGeneratedPasswordInput)
    (context : ActionAPIContext) (u : User) (newId : String) (now : Nat)
    (store : Store) (hctx : context.user = some u)
    (hpid : input.presetId = none) :
    ∃ password : GeneratedPassword,
      logGeneratedPasswordHandler input context newId now store =
        (.ok { success := true, password := password },
         { store with
            generatedPasswords := store.generatedPasswords ++ [password] }) ∧
      password.presetId = none ∧ password.id = newId ∧
      password.userId = u.id ∧
      password.wasCopied = input.wasCopied.getD false ∧
      password.lastCopiedAt = input.lastCopiedAt ∧
      password.encryptedValue = input.encryptedValue ∧
      password.hintLabel = input.hintLabel ∧
      password.createdAt = now := by
  unfold logGeneratedPasswordHandler requireUser checkPresetOwnership
  rw [hctx, hpid]
  exact ⟨_, rfl, rfl, rfl, rfl, rfl, rfl, rfl, rfl, rfl⟩

/-- C8 witness: a concrete logGeneratedPassword call without a presetId
succeeds on the sample store and stores a null presetId. -/
theorem log_without_presetId_inserts_witness :
    ∃ password : GeneratedPassword,
      logGeneratedPasswordHandler ({} : LogGeneratedPasswordInput)
        { user := some { id := "alice" } } "g1" 9 sampleStore =
        (.ok { success := true, password := password },
         { sampleStore with
            generatedPasswords :=
              sampleStore.generatedPasswords ++ [password] }) ∧
      password.presetId = none ∧ password.id = "g1" ∧
      password.userId = "alice" ∧
      password.wasCopied = (none : Option Bool).getD false ∧
      password.lastCopiedAt = none ∧ password.encryptedValue = none ∧
      password.hintLabel = none ∧ password.createdAt = 9 :=
  log_without_presetId_inserts {} { user := some { id := "alice" } }
    { id := "alice" } "g1" 9 sampleStore rfl rfl

/-- C4: a valid createPreset input (non-empty name, length at least 4)
run by an authenticated caller returns a record whose length equals the
supplied length and is at least 4, whose userId is the caller's id,
whose createdAt equals updatedAt, and whose boolean flags equal the
supplied values or the documented defaults. -/
theorem createPreset_valid_defaults (raw : CreatePresetRawInput)
    (context : ActionAPIContext) (u : User) (newId : String) (now : Nat)
    (store : Store) (hctx : context.user = some u)
    (hname : raw.name ≠ "") (hlen : 4 ≤ raw.length) :
    ∃ preset : PasswordPreset,
      (createPreset raw context newId now store).1 =
        .ok { success := true, preset := preset } ∧
      preset.length = raw.length ∧ 4 ≤ preset.length ∧
      preset.userId = u.id ∧ preset.createdAt = preset.updatedAt ∧
      preset.includeLowercase = raw.includeLowercase.getD true ∧
      preset.includeUppercase = raw.includeUppercase.getD true ∧
      preset.includeNumbers = raw.includeNumbers.getD true ∧
      preset.includeSymbols = raw.includeSymbols.getD true ∧
      preset.excludeSimilar = raw.excludeSimilar.getD false ∧
      preset.isDefault = raw.isDefault.getD false := by
  have h1 : ¬raw.name.length < 1 := length_pos_of_ne_empty raw.name hname
  have h2 : ¬raw.length < 4 := not_lt.mpr hlen
  unfold createPreset parseCreatePresetInput
  rw [if_neg h1, if_neg h2]
  unfold createPresetHandler requireUser
  rw [hctx]
  exact ⟨_, rfl, rfl, hlen, rfl, rfl, rfl, rfl, rfl, rfl, rfl, rfl⟩

/-- C4 witness: creating the preset of the spec scenario (name Wi-Fi,
length 12) as alice yields all the documented defaults. -/
theorem createPreset_valid_defaults_witness :
    ∃ preset : PasswordPreset,
      (createPreset { name := "Wi-Fi", length := 12 }
        { user := some { id := "alice" } } "p9" 7 sampleStore).1 =
        .ok { success := true, preset := preset } ∧
      preset.length = 12 ∧ 4 ≤ preset.length ∧
      preset.userId = "alice" ∧ preset.createdAt = preset.updatedAt ∧
      preset.includeLowercase = true ∧ preset.includeUppercase = true ∧
      preset.includeNumbers = true ∧ preset.includeSymbols = true ∧
      preset.excludeSimilar = false ∧ preset.isDefault = false :=
  createPreset_valid_defaults { name := "Wi-Fi", length := 12 }
    { user := some { id := "alice" } } { id := "alice" } "p9" 7 sampleStore
    rfl (by decide) (by decide)

/-- C6: for the same authenticated caller and store, listPresets with
defaultsOnly true returns exactly the defaultsOnly-false item list
restricted to records with isDefault true. -/
theorem listPresets_defaultsOnly_restriction (context : ActionAPIContext)
    (u : User) (store : Store) (hctx : context.user = some u) :
    ∃ itemsTrue itemsFalse : List PasswordPreset,
      (listPresetsHandler true context store).1 =
        .ok { success := true, items := itemsTrue,
              total := itemsTrue.length } ∧
      (listPresetsHandler false context store).1 =
        .ok { success := true, items := itemsFalse,
              total := itemsFalse.length } ∧
      itemsTrue = itemsFalse.filter fun p => p.isDefault := by
  unfold listPresetsHandler requireUser
  rw [hctx]
  refine ⟨_, _, rfl, rfl, ?_⟩
  have hpred : (fun p : PasswordPreset =>
      p.userId == u.id && (!true || p.isDefault)) =
      fun p => p.isDefault && (p.userId == u.id && (!false || p.isDefault)) := by
    funext p
    cases p.isDefault <;> cases p.userId == u.id <;> rfl
  rw [List.filter_filter, hpred]

/-- A second sample preset row owned by alice, not a default. -/
def samplePreset2 : PasswordPreset :=
  { id := "p2", userId := "alice", name := "Wi-Fi preset", length := 20,
    includeLowercase := true, includeUppercase := false,
    includeNumbers := true, includeSymbols := false, excludeSimilar := true,
    customSymbols := some "!@#$", notes := some "router",
    isDefault := false, createdAt := 2, updatedAt := 3 }

/-- A sample preset row owned by bob, marked default. -/
def samplePreset3 : PasswordPreset :=
  { id := "p3", userId := "bob", name := "Bank", length := 24,
    includeLowercase := true, includeUppercase := true,
    includeNumbers := true, includeSymbols := true, excludeSimilar := false,
    customSymbols := none, notes := none, isDefault := true,
    createdAt := 4, updatedAt := 4 }

/-- A store with presets of two users, mixed isDefault values. -/
def richStore : Store :=
  { passwordPresets := [samplePreset, samplePreset2, samplePreset3],
    generatedPasswords := [] }

/-- C6 witness: on a concrete store with mixed owners and flags, the
defaultsOnly listing for alice is the plain listing restricted to
defaults. -/
theorem listPresets_defaultsOnly_restriction_witness :
    ∃ itemsTrue itemsFalse : List PasswordPreset,
      (listPresetsHandler true { user := some { id := "alice" } }
        richStore).1 =
        .ok { success := true, items := itemsTrue,
              total := itemsTrue.length } ∧
      (listPresetsHandler false { user := some { id := "alice" } }
        richStore).1 =
        .ok { success := true, items := itemsFalse,
              total := itemsFalse.length } ∧
      itemsTrue = itemsFalse.filter fun p => p.isDefault :=
  listPresets_defaultsOnly_restriction { user := some { id := "alice" } }
    { id := "alice" } richStore rfl

/-- The parsed create input of the spec scenario. -/
def sampleCreateInput : CreatePresetInput :=
  { name := "Wi-Fi", length := 12, includeLowercase := true,
    includeUppercase := true, includeNumbers := true,
    includeSymbols := true, excludeSimilar := false, customSymbols := none,
    notes := none, isDefault := none }

/-- The row createPreset builds from `sampleCreateInput` for alice with
id p9 at time 7. -/
def createdSample : PasswordPreset :=
  { id := "p9", userId := "alice", name := "Wi-Fi", length := 12,
    includeLowercase := true, includeUppercase := true,
    includeNumbers := true, includeSymbols := true, excludeSimilar := false,
    customSymbols := none, notes := none, isDefault := false,
    createdAt := 7, updatedAt := 7 }

/-- C9: rows created by createPreset and logGeneratedPassword carry the
caller's userId (and are the only insertion), and rows returned by
listPresets and listGeneratedPasswords all carry the caller's userId. -/
theorem records_scoped_to_caller :
    (∀ input context u newId now store res store2, context.user = some u →
      createPresetHandler input context newId now store =
        (.ok res, store2) →
      res.preset.userId = u.id ∧
      store2.passwordPresets = store.passwordPresets ++ [res.preset]) ∧
    (∀ input context u newId now store res store2, context.user = some u →
      logGeneratedPasswordHandler input context newId now store =
        (.ok res, store2) →
      res.password.userId = u.id ∧
      store2.generatedPasswords =
        store.generatedPasswords ++ [res.password]) ∧
    (∀ defaultsOnly context u store res store2, context.user = some u →
      listPresetsHandler defaultsOnly context store = (.ok res, store2) →
      ∀ p ∈ res.items, p.userId = u.id) ∧
    (∀ input context u store res store2, context.user = some u →
      listGeneratedPasswordsHandler input context store =
        (.ok res, store2) →
      ∀ g ∈ res.items, g.userId = u.id) := by
  refine ⟨?_, ?_, ?_, ?_⟩
  · intro input context u newId now store res store2 hctx h
    unfold createPresetHandler requireUser at h
    rw [hctx] at h
    dsimp only at h
    simp only [Prod.mk.injEq, Except.ok.injEq] at h
    obtain ⟨h1, h2⟩ := h
    subst h1
    subst h2
    exact ⟨rfl, rfl⟩
  · intro input context u newId now store res store2 hctx h
    unfold logGeneratedPasswordHandler requireUser at h
    rw [hctx] at h
    dsimp only at h
    cases hown : checkPresetOwnership input.presetId u.id store with
    | error e => rw [hown] at h; simp at h
    | ok upd =>
      rw [hown] at h
      simp only [Prod.mk.injEq, Except.ok.injEq] at h
      obtain ⟨h1, h2⟩ := h
      subst h1
      subst h2
      exact ⟨rfl, rfl⟩
  · intro d context u store res store2 hctx h
    unfold listPresetsHandler requireUser at h
    rw [hctx] at h
    dsimp only at h
    simp only [Prod.mk.injEq, Except.ok.injEq] at h
    obtain ⟨h1, h2⟩ := h
    subst h1
    intro p hp
    obtain ⟨-, hpred⟩ := List.mem_filter.mp hp
    simp only [Bool.and_eq_true, beq_iff_eq] at hpred
    exact hpred.1
  · intro input context u store res store2 hctx h
    unfold listGeneratedPasswordsHandler requireUser at h
    rw [hctx] at h
    dsimp only at h
    cases hown : checkPresetOwnership input.presetId u.id store with
    | error e => rw [hown] at h; simp at h
    | ok upd =>
      rw [hown] at h
      simp only [Prod.mk.injEq, Except.ok.injEq] at h
      obtain ⟨h1, h2⟩ := h
      subst h1
      intro g hg
      obtain ⟨-, hpred⟩ := List.mem_filter.mp hg
      simp only [Bool.and_eq_true, beq_iff_eq] at hpred
      exact hpred.1

/-- C9 witness: a concrete createPreset call by alice yields a row owned
by alice, appended to the preset table. -/
theorem records_scoped_to_caller_witness :
    ({ success := true, preset := createdSample } :
      CreatePresetResult).preset.userId = "alice" ∧
    ({ passwordPresets := [samplePreset, createdSample],
       generatedPasswords := [] } : Store).passwordPresets =
      sampleStore.passwordPresets ++
        [({ success := true, preset := createdSample } :
          CreatePresetResult).preset] :=
  records_scoped_to_caller.1 sampleCreateInput
    { user := some { id := "alice" } } { id := "alice" } "p9" 7 sampleStore
    { success := true, preset := createdSample }
    { passwordPresets := [samplePreset, createdSample],
      generatedPasswords := [] } rfl rfl

/-- C10: with presetId supplied as the empty string, logGeneratedPassword
skips the ownership lookup (succeeding on every store) yet stores the
empty string rather than null, and listGeneratedPasswords skips the
lookup and filters by userId only. -/
theorem empty_presetId_absent_for_check_present_for_storage
    (input : LogGeneratedPasswordInput) (context : ActionAPIContext)
    (u : User) (newId : String) (now : Nat) (store : Store)
    (hctx : context.user = some u) (hpid : input.presetId = some "") :
    (∃ password : GeneratedPassword,
      logGeneratedPasswordHandler input context newId now store =
        (.ok { success := true, password := password },
         { store with
            generatedPasswords := store.generatedPasswords ++ [password] }) ∧
      password.presetId = some "" ∧ password.userId = u.id) ∧
    listGeneratedPasswordsHandler { presetId := some "" } context store =
      (.ok { success := true,
             items := store.generatedPasswords.filter fun g =>
               g.userId == u.id,
             total := (store.generatedPasswords.filter fun g =>
               g.userId == u.id).length },
       store) := by
  constructor
  · unfold logGeneratedPasswordHandler requireUser checkPresetOwnership
    rw [hctx, hpid]
    exact ⟨_, rfl, rfl, rfl⟩
  · unfold listGeneratedPasswordsHandler requireUser checkPresetOwnership
    rw [hctx]
    dsimp only
    have hpred : (fun g : GeneratedPassword =>
        g.userId == u.id &&
          (!truthyString (some "") || g.presetId == some "")) =
        fun g => g.userId == u.id := by
      funext g
      cases g.userId == u.id <;> rfl
    rw [hpred]
    exact rfl

/-- A generated-password row of alice with no preset link. -/
def sampleGP1 : GeneratedPassword :=
  { id := "g1", userId := "alice", presetId := none,
    encryptedValue := none, hintLabel := none, length := none,
    wasCopied := false, lastCopiedAt := none, createdAt := 1 }

/-- A generated-password row of bob linked to preset p1. -/
def sampleGP2 : GeneratedPassword :=
  { id := "g2", userId := "bob", presetId := some "p1",
    encryptedValue := none, hintLabel := none, length := none,
    wasCopied := true, lastCopiedAt := none, createdAt := 2 }

/-- A store with generated passwords of two users. -/
def gpStore : Store :=
  { passwordPresets := [samplePreset],
    generatedPasswords := [sampleGP1, sampleGP2] }

/-- C10 witness: a concrete call with presetId set to the empty string
succeeds, stores the empty string, and the listing filters by userId
only. -/
theorem empty_presetId_witness :
    (∃ password : GeneratedPassword,
      logGeneratedPasswordHandler { presetId := some "" }
        { user := some { id := "alice" } } "g9" 4 gpStore =
        (.ok { success := true, password := password },
         { gpStore with
            generatedPasswords :=
              gpStore.generatedPasswords ++ [password] }) ∧
      password.presetId = some "" ∧ password.userId = "alice") ∧
    listGeneratedPasswordsHandler { presetId := some "" }
      { user := some { id := "alice" } } gpStore =
      (.ok { success := true,
             items := gpStore.generatedPasswords.filter fun g =>
               g.userId == "alice",
             total := (gpStore.generatedPasswords.filter fun g =>
               g.userId == "alice").length },
       gpStore) :=
  empty_presetId_absent_for_check_present_for_storage
    { presetId := some "" } { user := some { id := "alice" } }
    { id := "alice" } "g9" 4 gpStore rfl rfl

/-- Auxiliary: when no stored preset matches both the id and the userId,
getOwnedPreset throws NOT_FOUND. -/
theorem getOwnedPreset_eq_error (pid uid : String) (store : Store)
    (h : ∀ q ∈ store.passwordPresets, q.id = pid → q.userId ≠ uid) :
    getOwnedPreset pid uid store = .error notFoundFailure := by
  unfold getOwnedPreset
  have hfil : store.passwordPresets.filter
      (fun p => p.id == pid && p.userId == uid) = [] := by
    rw [List.filter_eq_nil_iff]
    intro q hq
    simp only [Bool.and_eq_true, beq_iff_eq, not_and]
    intro h1 h2
    exact h q hq h1 h2
  rw [hfil]
  exact rfl

/-- Auxiliary: a stored preset matching both the id and the userId makes
getOwnedPreset succeed. -/
theorem getOwnedPreset_exists_ok (pid uid : String) (store : Store)
    (p : PasswordPreset) (hp : p ∈ store.passwordPresets)
    (hid : p.id = pid) (huid : p.userId = uid) :
    ∃ q, getOwnedPreset pid uid store = .ok q := by
  unfold getOwnedPreset
  have hmem : p ∈ store.passwordPresets.filter
      (fun r => r.id == pid && r.userId == uid) := by
    rw [List.mem_filter]
    exact ⟨hp, by simp [hid, huid]⟩
  cases hfil : (store.passwordPresets.filter
      (fun r => r.id == pid && r.userId == uid)).head? with
  | none =>
    rw [List.head?_eq_none_iff] at hfil
    rw [hfil] at hmem
    cases hmem
  | some q => exact ⟨q, rfl⟩

/-- Auxiliary: mapping a function that fixes every member of a list
leaves the list unchanged. -/
theorem map_eq_self_of_mem {α : Type} {f : α → α} {l : List α}
    (h : ∀ a ∈ l, f a = a) : l.map f = l := by
  induction l with
  | nil => rfl
  | cons x xs ih =>
    rw [List.map_cons, h x (List.mem_cons_self x xs),
      ih fun a ha => h a (List.mem_cons_of_mem x ha)]

/-- C1 (amended): against a non-empty preset id all of whose stored
records belong to another user, updatePreset, logGeneratedPassword with
that presetId, and listGeneratedPasswords with that presetId fail with
NOT_FOUND and leave the store unchanged; an empty-string presetId is
excluded because logGeneratedPassword and listGeneratedPasswords treat
it as absent and skip the ownership check. -/
theorem foreign_preset_not_found (store : Store)
    (context : ActionAPIContext) (u : User) (pid : String)
    (p : PasswordPreset) (hctx : context.user = some u)
    (hnodup : (store.passwordPresets.map PasswordPreset.id).Nodup)
    (hp : p ∈ store.passwordPresets) (hpid : p.id = pid)
    (howner : p.userId ≠ u.id) (hne : pid ≠ "")
    (uinput : UpdatePresetInput) (huid : uinput.id = pid)
    (linput : LogGeneratedPasswordInput)
    (hlog : linput.presetId = some pid) (now : Nat) (newId : String) :
    updatePresetHandler uinput context now store =
      (.error notFoundFailure, store) ∧
    logGeneratedPasswordHandler linput context newId now store =
      (.error notFoundFailure, store) ∧
    listGeneratedPasswordsHandler { presetId := some pid } context store =
      (.error notFoundFailure, store) := by
  have hall : ∀ q ∈ store.passwordPresets, q.id = pid → q.userId ≠ u.id := by
    intro q hq hqid
    have hqp : q = p :=
      List.inj_on_of_nodup_map hnodup hq hp (by rw [hqid, hpid])
    rw [hqp]
    exact howner
  have herr : getOwnedPreset pid u.id store = .error notFoundFailure :=
    getOwnedPreset_eq_error pid u.id store hall
  have hb : (pid == "") = false := beq_eq_false_iff_ne.mpr hne
  refine ⟨?_, ?_, ?_⟩
  · unfold updatePresetHandler requireUser
    rw [hctx]
    dsimp only
    rw [huid, herr]
  · unfold logGeneratedPasswordHandler requireUser checkPresetOwnership
    rw [hctx]
    dsimp only
    rw [hlog]
    dsimp only
    rw [herr, hb]
    exact rfl
  · unfold listGeneratedPasswordsHandler requireUser checkPresetOwnership
    rw [hctx]
    dsimp only
    rw [herr, hb]
    exact rfl

/-- C1 witness: alice hits bob's preset p3 in a concrete store; all three
operations fail with NOT_FOUND and leave the store unchanged. -/
theorem foreign_preset_not_found_witness :
    updatePresetHandler { id := "p3", name := some "x" }
      { user := some { id := "alice" } } 9 richStore =
      (.error notFoundFailure, richStore) ∧
    logGeneratedPasswordHandler { presetId := some "p3" }
      { user := some { id := "alice" } } "g9" 9 richStore =
      (.error notFoundFailure, richStore) ∧
    listGeneratedPasswordsHandler { presetId := some "p3" }
      { user := some { id := "alice" } } richStore =
      (.error notFoundFailure, richStore) :=
  foreign_preset_not_found richStore { user := some { id := "alice" } }
    { id := "alice" } "p3" samplePreset3 rfl (by decide) (by decide) rfl
    (by decide) (by decide) { id := "p3", name := some "x" } rfl
    { presetId := some "p3" } rfl 9 "g9"

/-- A preset row whose id is the empty string, owned by alice. -/
def emptyIdPreset : PasswordPreset :=
  { id := "", userId := "alice", name := "x", length := 8,
    includeLowercase := true, includeUppercase := true,
    includeNumbers := true, includeSymbols := true,
    excludeSimilar := false, customSymbols := none, notes := none,
    isDefault := false, createdAt := 0, updatedAt := 0 }

/-- A store whose only preset has the empty string as its id and belongs
to alice. -/
def emptyIdStore : Store :=
  { passwordPresets := [emptyIdPreset], generatedPasswords := [] }

/-- Checks that a result is a success rather than a thrown error. -/
def isOkResult {α : Type} : Except ActionFailure α → Bool
  | .ok _ => true
  | .error _ => false

/-- C1 counterexample: a stored preset with the empty string as id exists
and belongs to alice, yet bob's logGeneratedPassword supplying that
presetId does not fail (no NOT_FOUND error) and does insert a row,
because the handler treats a falsy presetId as absent. -/
theorem foreign_preset_not_found_counterexample :
    ((emptyIdStore.passwordPresets.filter fun p =>
      p.id == "" && !(p.userId == "bob")).length = 1) ∧
    isOkResult (logGeneratedPasswordHandler { presetId := some "" }
      { user := some { id := "bob" } } "g1" 5 emptyIdStore).1 = true ∧
    emptyIdStore.generatedPasswords.length = 0 ∧
    (logGeneratedPasswordHandler { presetId := some "" }
      { user := some { id := "bob" } } "g1" 5
      emptyIdStore).2.generatedPasswords.length = 1 := by
  decide

/-- C5: a successful updatePreset by the owner replaces exactly the
targeted row: the supplied fields take the supplied values, every
unsupplied field (id, userId, createdAt included) is unchanged,
updatedAt is stamped with the update time, and every other row of the
store is untouched. -/
theorem updatePreset_partial_update (input : UpdatePresetInput)
    (context : ActionAPIContext) (u : User) (now : Nat) (store : Store)
    (p : PasswordPreset) (hctx : context.user = some u)
    (hnodup : (store.passwordPresets.map PasswordPreset.id).Nodup)
    (hp : p ∈ store.passwordPresets) (hid : p.id = input.id)
    (howner : p.userId = u.id) :
    ∃ (r : PasswordPreset) (l1 l2 : List PasswordPreset),
      store.passwordPresets = l1 ++ p :: l2 ∧
      updatePresetHandler input context now store =
        (.ok { success := true, preset := some r },
         { store with passwordPresets := l1 ++ r :: l2 }) ∧
      r.id = p.id ∧ r.userId = p.userId ∧ r.createdAt = p.createdAt ∧
      r.name = input.name.getD p.name ∧
      r.length = input.length.getD p.length ∧
      r.includeLowercase = input.includeLowercase.getD p.includeLowercase ∧
      r.includeUppercase = input.includeUppercase.getD p.includeUppercase ∧
      r.includeNumbers = input.includeNumbers.getD p.includeNumbers ∧
      r.includeSymbols = input.includeSymbols.getD p.includeSymbols ∧
      r.excludeSimilar = input.excludeSimilar.getD p.excludeSimilar ∧
      r.customSymbols = (match input.customSymbols with
        | some s => some s
        | none => p.customSymbols) ∧
      r.notes = (match input.notes with
        | some s => some s
        | none => p.notes) ∧
      r.isDefault = input.isDefault.getD p.isDefault ∧
      r.updatedAt = now := by
  obtain ⟨l1, l2, hsplit⟩ := List.append_of_mem hp
  have hnd : ((l1 ++ p :: l2).map PasswordPreset.id).Nodup := by
    rw [← hsplit]
    exact hnodup
  rw [List.map_append, List.map_cons, List.nodup_append] at hnd
  obtain ⟨hnd1, hnd2, hdisj⟩ := hnd
  have h2 : p.id ∉ l2.map PasswordPreset.id := by
    rw [List.nodup_cons] at hnd2
    exact hnd2.1
  have h1 : p.id ∉ l1.map PasswordPreset.id := fun hmem =>
    hdisj hmem (List.mem_cons_self _ _)
  have hne1 : ∀ q ∈ l1, (q.id == input.id) = false := by
    intro q hq
    rw [beq_eq_false_iff_ne]
    intro hqe
    apply h1
    rw [hid, ← hqe]
    exact List.mem_map_of_mem _ hq
  have hne2 : ∀ q ∈ l2, (q.id == input.id) = false := by
    intro q hq
    rw [beq_eq_false_iff_ne]
    intro hqe
    apply h2
    rw [hid, ← hqe]
    exact List.mem_map_of_mem _ hq
  obtain ⟨q0, hq0⟩ := getOwnedPreset_exists_ok input.id u.id store p hp hid
    howner
  have hmap : store.passwordPresets.map
      (fun r => if r.id == input.id then applyPresetUpdate input now r
        else r) = l1 ++ applyPresetUpdate input now p :: l2 := by
    rw [hsplit, List.map_append, List.map_cons]
    congr 1
    · apply map_eq_self_of_mem
      intro a ha
      simp [hne1 a ha]
    · congr 1
      simp only [hid, beq_self_eq_true, if_true]
      apply map_eq_self_of_mem
      intro a ha
      simp [hne2 a ha]
  have happ : (applyPresetUpdate input now p).id = input.id := hid
  have hret : ((l1 ++ applyPresetUpdate input now p :: l2).filter
      (fun r => r.id == input.id)).head? =
      some (applyPresetUpdate input now p) := by
    rw [List.filter_append]
    have hf1 : l1.filter (fun r => r.id == input.id) = [] := by
      rw [List.filter_eq_nil_iff]
      intro a ha
      simp [hne1 a ha]
    rw [hf1, List.filter_cons]
    simp only [happ, beq_self_eq_true, if_true]
    rfl
  refine ⟨applyPresetUpdate input now p, l1, l2, hsplit, ?_, rfl, rfl, rfl,
    rfl, rfl, rfl, rfl, rfl, rfl, rfl, rfl, rfl, rfl, rfl⟩
  unfold updatePresetHandler requireUser
  rw [hctx]
  dsimp only
  rw [hq0]
  dsimp only
  rw [hmap, hret]

/-- C5 witness: the spec scenario, updating alice's preset p1 with
length 20 in a concrete store: only length and updatedAt change and the
other rows stay in place. -/
theorem updatePreset_partial_update_witness :
    ∃ (r : PasswordPreset) (l1 l2 : List PasswordPreset),
      richStore.passwordPresets = l1 ++ samplePreset :: l2 ∧
      updatePresetHandler { id := "p1", length := some 20 }
        { user := some { id := "alice" } } 9 richStore =
        (.ok { success := true, preset := some r },
         { richStore with passwordPresets := l1 ++ r :: l2 }) ∧
      r.id = samplePreset.id ∧ r.userId = samplePreset.userId ∧
      r.createdAt = samplePreset.createdAt ∧
      r.name = (none : Option String).getD samplePreset.name ∧
      r.length = (some 20 : Option Int).getD samplePreset.length ∧
      r.includeLowercase =
        (none : Option Bool).getD samplePreset.includeLowercase ∧
      r.includeUppercase =
        (none : Option Bool).getD samplePreset.includeUppercase ∧
      r.includeNumbers =
        (none : Option Bool).getD samplePreset.includeNumbers ∧
      r.includeSymbols =
        (none : Option Bool).getD samplePreset.includeSymbols ∧
      r.excludeSimilar =
        (none : Option Bool).getD samplePreset.excludeSimilar ∧
      r.customSymbols = samplePreset.customSymbols ∧
      r.notes = samplePreset.notes ∧
      r.isDefault = (none : Option Bool).getD samplePreset.isDefault ∧
      r.updatedAt = 9 :=
  updatePreset_partial_update { id := "p1", length := some 20 }
    { user := some { id := "alice" } } { id := "alice" } 9 richStore
    samplePreset rfl (by decide) (by decide) rfl rfl

end PasswordGen
